import Mathlib

/-! Verification of the simple MCP tool server (`examples/simple_mcp_server.py`).

This file shallowly embeds the server's data model, its five tool handlers,
the request dispatcher (`handle_request` / `call_tool`) and the line-oriented
transport loop (`run`), and proves theorems about the response contract.

Modelling conventions:
* Python dicts of string arguments become association lists `List (String × String)`;
  `d.get(k, dflt)` becomes `dictGet`.
* The host environment (clock, platform introspection) is passed explicitly as
  `Clock` and `Host` records; the filesystem is an explicit `FS` state threaded
  through `file_operations`, `call_tool`, `handle_request` and the loop.
* Python string methods are modelled for ASCII text (`upper`, `lower`,
  `title`, ...), matching the spec's ASCII restriction.
* Python `eval` on expressions that passed the `^[0-9+\-*/().\s]+$` allow-list
  is modelled by a tokenizer plus recursive-descent parser/evaluator over
  `+ - * /`, unary sign, parentheses, and int/float literals, with standard
  precedence and left-to-right associativity (Python's grammar for this
  fragment); `**` and `//`, which the regex also lets through, are outside the
  modelled fragment and evaluate to a syntax error here.
* Exceptions become explicit error branches (`Except`/`Option`); handlers in
  the model are total, so the dispatcher's backstop `except` branch and the
  loop's catch-all are unreachable in the embedding.
-/

namespace SimpleMCP

/-- Argument mapping as read by the handlers (`arguments.get(key, default)`);
the handlers only consume string-valued entries. -/
abbrev Args := List (String × String)

/-- Python `d.get(k, dflt)` on a string-valued dict. -/
def dictGet (d : Args) (k dflt : String) : String :=
  match d.lookup k with
  | some v => v
  | none => dflt

/-- One element of a response's `content` list, `dict(type=..., text=...)`. -/
structure ContentItem where
  ctype : String
  text : String
deriving DecidableEq

/-- A property entry inside a tool's `inputSchema.properties`. -/
structure SchemaProp where
  ptype : String
  descr : String
  enumVals : Option (List String) := none
  dfault : Option String := none
deriving DecidableEq

/-- A tool's `inputSchema` object. -/
structure InputSchema where
  stype : String
  properties : List (String × SchemaProp)
  required : List String
deriving DecidableEq

/-- A registered tool descriptor (`name`, `description`, `inputSchema`). -/
structure ToolDescriptor where
  name : String
  descr : String
  inputSchema : InputSchema
deriving DecidableEq

/-- A response written to stdout: either the `tools/list` payload
`dict(tools=[...])` or the uniform `dict(content=..., isError=...)` shape,
where `isError := none` models the key being absent. -/
inductive Response where
  | toolsList (tools : List ToolDescriptor)
  | result (content : List ContentItem) (isError : Option Bool)
deriving DecidableEq

/-- A success response: one text item, no `isError` key. -/
def mkOk (s : String) : Response :=
  Response.result [⟨"text", s⟩] none

/-- An error response: one text item, `isError: True`. -/
def mkErr (s : String) : Response :=
  Response.result [⟨"text", s⟩] (some true)

/-! ## The static tool registry (`SimpleMCPServer.__init__`) -/

/-- Descriptor of the `text_transform` tool. -/
def text_transform_tool : ToolDescriptor :=
  { name := "text_transform"
    descr := "Transform text using various operations (uppercase, lowercase, reverse, etc.)"
    inputSchema :=
      { stype := "object"
        properties :=
          [("text", { ptype := "string", descr := "The text to transform" }),
           ("operation",
             { ptype := "string", descr := "The operation to perform",
               enumVals := some ["uppercase", "lowercase", "reverse", "capitalize",
                                 "title", "count_words", "count_chars"] })]
        required := ["text", "operation"] } }

/-- Descriptor of the `calculate` tool. -/
def calculate_tool : ToolDescriptor :=
  { name := "calculate"
    descr := "Perform mathematical calculations"
    inputSchema :=
      { stype := "object"
        properties :=
          [("expression",
             { ptype := "string",
               descr := "Mathematical expression to evaluate (e.g., \x272 + 3 * 4\x27)" })]
        required := ["expression"] } }

/-- Descriptor of the `system_info` tool. -/
def system_info_tool : ToolDescriptor :=
  { name := "system_info"
    descr := "Get system information"
    inputSchema :=
      { stype := "object"
        properties :=
          [("info_type",
             { ptype := "string",
               descr := "Type of system information to retrieve",
               enumVals := some ["platform", "cpu", "memory", "disk", "network",
                                 "processes", "uptime"] })]
        required := ["info_type"] } }

/-- Descriptor of the `file_operations` tool. -/
def file_operations_tool : ToolDescriptor :=
  { name := "file_operations"
    descr := "Basic file operations (list, read, write)"
    inputSchema :=
      { stype := "object"
        properties :=
          [("operation",
             { ptype := "string", descr := "File operation to perform",
               enumVals := some ["list", "read", "write", "exists", "size"] }),
           ("path", { ptype := "string", descr := "File or directory path" }),
           ("content",
             { ptype := "string",
               descr := "Content to write (only for write operation)" })]
        required := ["operation", "path"] } }

/-- Descriptor of the `current_time` tool. -/
def current_time_tool : ToolDescriptor :=
  { name := "current_time"
    descr := "Get current date and time information"
    inputSchema :=
      { stype := "object"
        properties :=
          [("format",
             { ptype := "string", descr := "Time format (iso, human, timestamp, custom)",
               enumVals := some ["iso", "human", "timestamp", "custom"] }),
           ("timezone",
             { ptype := "string", descr := "Timezone (default: local)",
               dfault := some "local" }),
           ("custom_format",
             { ptype := "string",
               descr := "Custom format string (for custom format type)" })]
        required := ["format"] } }

/-- `list(self.tools.values())` in the dict's insertion order; `self.tools` is
keyed by each descriptor's name and never mutated after `__init__`. -/
def tools : List ToolDescriptor :=
  [text_transform_tool, calculate_tool, system_info_tool,
   file_operations_tool, current_time_tool]

/-- The registry's key set, used for the `tool_name in self.tools` test. -/
def toolNames : List String := tools.map ToolDescriptor.name

/-! ## Python string primitives (ASCII model) -/

/-- Python's `str.upper` on one character, for the ASCII range the spec
restricts attention to: `a`-`z` maps down by 32, all else is fixed. -/
def pyUpperChar (c : Char) : Char :=
  if 97 ≤ c.toNat ∧ c.toNat ≤ 122 then Char.ofNat (c.toNat - 32) else c

/-- Python's `str.lower` on one character (ASCII model): `A`-`Z` maps up
by 32, all else is fixed. -/
def pyLowerChar (c : Char) : Char :=
  if 65 ≤ c.toNat ∧ c.toNat ≤ 90 then Char.ofNat (c.toNat + 32) else c

/-- `text.upper()` (ASCII model). -/
def pyUpper (s : String) : String := ⟨s.data.map pyUpperChar⟩

/-- `text.lower()` (ASCII model). -/
def pyLower (s : String) : String := ⟨s.data.map pyLowerChar⟩

/-- `text[::-1]`: reversal of the sequence of code points. -/
def pyReverse (s : String) : String := ⟨s.data.reverse⟩

/-- ASCII letter test, used by the `title` model. -/
def pyIsAlpha (c : Char) : Bool :=
  (65 ≤ c.toNat && c.toNat ≤ 90) || (97 ≤ c.toNat && c.toNat ≤ 122)

/-- `text.capitalize()` (ASCII model): first character uppercased, the rest
lowered. -/
def pyCapitalize (s : String) : String :=
  match s.data with
  | [] => ⟨[]⟩
  | c :: cs => ⟨pyUpperChar c :: cs.map pyLowerChar⟩

/-- Core of `text.title()` (ASCII model): a letter directly after a letter is
lowered, a letter after a non-letter is uppercased. -/
def pyTitleAux : Bool → List Char → List Char
  | _, [] => []
  | prevAlpha, c :: cs =>
      let c' := if pyIsAlpha c then (if prevAlpha then pyLowerChar c else pyUpperChar c) else c
      c' :: pyTitleAux (pyIsAlpha c) cs

/-- `text.title()` (ASCII model). -/
def pyTitle (s : String) : String := ⟨pyTitleAux false s.data⟩

/-- Whitespace for Python's `str.split()` and for the regex class `\s`
(ASCII model: space, tab, newline, carriage return, form feed, vertical
tab). -/
def pyIsSpace (c : Char) : Bool :=
  c = ' ' || c = '\t' || c = '\n' || c = '\x0d' || c = '\x0c' || c = '\x0b'

/-- `len(text.split())`: the number of maximal runs of non-whitespace
characters. -/
def pySplitCount (cs : List Char) : Nat :=
  match cs with
  | [] => 0
  | c :: rest =>
      if pyIsSpace c then pySplitCount rest
      else 1 + pySplitCountIn rest
where
  /-- Count continuing inside a token. -/
  pySplitCountIn : List Char → Nat
  | [] => 0
  | c :: rest => if pyIsSpace c then pySplitCount rest else pySplitCountIn rest

/-! ## The `text_transform` handler -/

/-- `SimpleMCPServer.text_transform`. -/
def text_transform (arguments : Args) : Response :=
  let text := dictGet arguments "text" ""
  let operation := dictGet arguments "operation" ""
  if operation = "uppercase" then mkOk (pyUpper text)
  else if operation = "lowercase" then mkOk (pyLower text)
  else if operation = "reverse" then mkOk (pyReverse text)
  else if operation = "capitalize" then mkOk (pyCapitalize text)
  else if operation = "title" then mkOk (pyTitle text)
  else if operation = "count_words" then
    mkOk ("Word count: " ++ toString (pySplitCount text.data))
  else if operation = "count_chars" then
    mkOk ("Character count: " ++ toString text.length ++ " (including spaces), "
          ++ toString (text.replace " " "").length ++ " (excluding spaces)")
  else mkErr ("Unknown operation: " ++ operation)

/-! ## The `calculate` handler

Python `eval` on an expression that passed the allow-list regex is modelled
by `pyEval`: int/float literals, unary sign, `+ - * /`, parentheses, with
standard precedence and left-to-right associativity, which is Python's own
grammar for this fragment.  Values are `PyNum` (exact: `Int` for Python
ints, `ℚ` for Python floats; host binary floating point is approximated by
exact rationals, which agrees on the short decimal literals and division-free
results considered here). -/

/-- The two exception classes the modelled evaluator can raise. -/
inductive EvalErr where
  | syntaxErr
  | zeroDiv
deriving DecidableEq

/-- `str(e)` for the modelled exceptions. -/
def EvalErr.msg : EvalErr → String
  | .syntaxErr => "invalid syntax (<string>, line 1)"
  | .zeroDiv => "division by zero"

/-- A Python numeric value: `int`, or `float` modelled as an exact (not
necessarily reduced) fraction `fnum / fden`.  The fraction is exact where
the host float is binary; the two agree on the short decimal literals and
division-free arithmetic the claims exercise.  Rendering (`PyNum.str`)
depends only on the fraction's value, not its representation. -/
inductive PyNum where
  | int (n : Int)
  | float (fnum : Int) (fden : Nat)
deriving DecidableEq

/-- View a value as a fraction (an int is `n / 1`). -/
def PyNum.toFrac : PyNum → Int × Nat
  | .int n => (n, 1)
  | .float n d => (n, d)

/-- Python `+`: int when both operands are ints, float otherwise. -/
def PyNum.add : PyNum → PyNum → PyNum
  | .int a, .int b => .int (a + b)
  | a, b =>
      let (an, ad) := a.toFrac
      let (bn, bd) := b.toFrac
      .float (an * bd + bn * ad) (ad * bd)

/-- Python binary `-`. -/
def PyNum.sub : PyNum → PyNum → PyNum
  | .int a, .int b => .int (a - b)
  | a, b =>
      let (an, ad) := a.toFrac
      let (bn, bd) := b.toFrac
      .float (an * bd - bn * ad) (ad * bd)

/-- Python `*`. -/
def PyNum.mul : PyNum → PyNum → PyNum
  | .int a, .int b => .int (a * b)
  | a, b =>
      let (an, ad) := a.toFrac
      let (bn, bd) := b.toFrac
      .float (an * bn) (ad * bd)

/-- Python unary `-`. -/
def PyNum.neg : PyNum → PyNum
  | .int n => .int (-n)
  | .float n d => .float (-n) d

/-- Python unary `+`. -/
def PyNum.pos (v : PyNum) : PyNum := v

/-- Python `/`: true division, always a float; division by zero raises. -/
def PyNum.div (a b : PyNum) : Except EvalErr PyNum :=
  let (an, ad) := a.toFrac
  let (bn, bd) := b.toFrac
  if bn = 0 then .error .zeroDiv
  else if bn < 0 then .ok (.float (-(an * bd)) (ad * bn.natAbs))
  else .ok (.float (an * bd) (ad * bn.natAbs))

/-- Value of a digit run. -/
def digitsToNat (cs : List Char) : Nat :=
  cs.foldl (fun a c => a * 10 + (c.toNat - 48)) 0

/-- Decimal-expansion digits of `rem/den` (`0 < rem < den`), producing digits
until the remainder vanishes or the fuel runs out; Python's
shortest-roundtrip float repr agrees with this on terminating short
decimals, the only floats the claims exercise. -/
def fracDigits : Nat → Nat → Nat → String
  | _, _, 0 => ""
  | rem, den, fuel+1 =>
      let r10 := rem * 10
      let digit := r10 / den
      let rem' := r10 % den
      toString digit ++ (if rem' = 0 then "" else fracDigits rem' den fuel)

/-- `str(f)` for a Python float `num / den`, modelled as the exact decimal
expansion (signed zeros are not modelled; `den = 0` is unreachable for
evaluator results). -/
def pyFloatStr (num : Int) (den : Nat) : String :=
  if den = 0 then "nan"
  else
    let sign := if num < 0 then "-" else ""
    let n := num.natAbs
    let ip := n / den
    let r := n % den
    if r = 0 then sign ++ toString ip ++ ".0"
    else sign ++ toString ip ++ "." ++ fracDigits r den 64

/-- `str(result)` as interpolated into the response f-string. -/
def PyNum.str : PyNum → String
  | .int n => toString n
  | .float n d => pyFloatStr n d

/-- Lexer tokens for the modelled expression grammar. -/
inductive Tok where
  | num (v : PyNum)
  | plus
  | minus
  | star
  | slash
  | lparen
  | rparen
deriving DecidableEq

/-- Value of one numeral run of digits and dots: a digit run is an int
literal; one dot with digit runs around it (at least one side non-empty) is
a float literal; anything else (lone dot, two dots) is a syntax error. -/
def numeralVal (cs : List Char) : Except EvalErr PyNum :=
  if cs ≠ [] ∧ cs.all Char.isDigit then
    .ok (.int (digitsToNat cs))
  else
    let ip := cs.takeWhile (fun c => c ≠ '.')
    match cs.dropWhile (fun c => c ≠ '.') with
    | '.' :: fp =>
        if (ip ≠ [] ∨ fp ≠ []) ∧ ip.all Char.isDigit ∧ fp.all Char.isDigit then
          .ok (.float (digitsToNat (ip ++ fp)) (10 ^ fp.length))
        else .error .syntaxErr
    | _ => .error .syntaxErr

/-- Tokenizer: skips whitespace, groups maximal runs of digits/dots into
numerals, maps the four operators and parentheses to tokens.  The fuel is
`cs.length + 1`, enough since every step consumes a character. -/
def tokenizeAux : Nat → List Char → Except EvalErr (List Tok)
  | 0, _ => .error .syntaxErr
  | _+1, [] => .ok []
  | fuel+1, c :: cs =>
      if c.isDigit || c = '.' then
        let run := c :: cs.takeWhile (fun d => d.isDigit || d = '.')
        let rest := cs.dropWhile (fun d => d.isDigit || d = '.')
        do
          let v ← numeralVal run
          let ts ← tokenizeAux fuel rest
          .ok (.num v :: ts)
      else if pyIsSpace c then tokenizeAux fuel cs
      else if c = '+' then do
        let ts ← tokenizeAux fuel cs
        .ok (.plus :: ts)
      else if c = '-' then do
        let ts ← tokenizeAux fuel cs
        .ok (.minus :: ts)
      else if c = '*' then do
        let ts ← tokenizeAux fuel cs
        .ok (.star :: ts)
      else if c = '/' then do
        let ts ← tokenizeAux fuel cs
        .ok (.slash :: ts)
      else if c = '(' then do
        let ts ← tokenizeAux fuel cs
        .ok (.lparen :: ts)
      else if c = ')' then do
        let ts ← tokenizeAux fuel cs
        .ok (.rparen :: ts)
      else .error .syntaxErr

mutual

/-- `expr := term (('+'|'-') term)*`. -/
def parseExpr : Nat → List Tok → Except EvalErr (PyNum × List Tok)
  | 0, _ => .error .syntaxErr
  | fuel+1, toks => do
      let (v, rest) ← parseTerm fuel toks
      parseExprLoop fuel v rest

/-- Left-associative fold of the `+`/`-` tail of an `expr`. -/
def parseExprLoop : Nat → PyNum → List Tok → Except EvalErr (PyNum × List Tok)
  | 0, _, _ => .error .syntaxErr
  | fuel+1, acc, Tok.plus :: rest => do
      let (v, r) ← parseTerm fuel rest
      parseExprLoop fuel (PyNum.add acc v) r
  | fuel+1, acc, Tok.minus :: rest => do
      let (v, r) ← parseTerm fuel rest
      parseExprLoop fuel (PyNum.sub acc v) r
  | _+1, acc, toks => .ok (acc, toks)

/-- `term := factor (('*'|'/') factor)*`. -/
def parseTerm : Nat → List Tok → Except EvalErr (PyNum × List Tok)
  | 0, _ => .error .syntaxErr
  | fuel+1, toks => do
      let (v, rest) ← parseFactor fuel toks
      parseTermLoop fuel v rest

/-- Left-associative fold of the `*`/`/` tail of a `term`. -/
def parseTermLoop : Nat → PyNum → List Tok → Except EvalErr (PyNum × List Tok)
  | 0, _, _ => .error .syntaxErr
  | fuel+1, acc, Tok.star :: rest => do
      let (v, r) ← parseFactor fuel rest
      parseTermLoop fuel (PyNum.mul acc v) r
  | fuel+1, acc, Tok.slash :: rest => do
      let (v, r) ← parseFactor fuel rest
      let q ← PyNum.div acc v
      parseTermLoop fuel q r
  | _+1, acc, toks => .ok (acc, toks)

/-- `factor := ('+'|'-') factor | '(' expr ')' | numeral`. -/
def parseFactor : Nat → List Tok → Except EvalErr (PyNum × List Tok)
  | 0, _ => .error .syntaxErr
  | fuel+1, Tok.plus :: rest => do
      let (v, r) ← parseFactor fuel rest
      .ok (PyNum.pos v, r)
  | fuel+1, Tok.minus :: rest => do
      let (v, r) ← parseFactor fuel rest
      .ok (PyNum.neg v, r)
  | _+1, Tok.num v :: rest => .ok (v, rest)
  | fuel+1, Tok.lparen :: rest => do
      let (v, r) ← parseExpr fuel rest
      match r with
      | Tok.rparen :: r2 => .ok (v, r2)
      | _ => .error .syntaxErr
  | _+1, _ => .error .syntaxErr

end

/-- `eval(expression)` on the modelled fragment: tokenize, parse a full
`expr`, require all tokens consumed. -/
def pyEval (expression : String) : Except EvalErr PyNum := do
  let toks ← tokenizeAux (expression.data.length + 1) expression.data
  let (v, rest) ← parseExpr (toks.length * 4 + 4) toks
  match rest with
  | [] => .ok v
  | _ => .error .syntaxErr

/-- The character class of the allow-list regex `^[0-9+\-*/().\s]+$`:
digits, the four operators, parentheses, the dot, and whitespace. -/
def calcAllowedChar (c : Char) : Bool :=
  c.isDigit || "+-*/().".toList.contains c || pyIsSpace c

/-- `re.match(r..., expression)` succeeds: non-empty and every character in
the allowed class (`$` also matches before a trailing newline, but a newline
is itself in `\s`, so full-match is equivalent to this). -/
def calcRegexOk (e : String) : Bool :=
  !e.data.isEmpty && e.data.all calcAllowedChar

/-- The fixed allow-list rejection text. -/
def invalidExprText : String :=
  "Invalid expression: only numbers and basic operators (+, -, *, /, parentheses) are allowed"

/-- `SimpleMCPServer.calculate`. -/
def calculate (arguments : Args) : Response :=
  let expression := dictGet arguments "expression" ""
  if calcRegexOk expression then
    match pyEval expression with
    | .ok v => mkOk (expression ++ " = " ++ v.str)
    | .error e => mkErr ("Error calculating \x27" ++ expression ++ "\x27: " ++ e.msg)
  else mkErr invalidExprText

/-! ## The `system_info` handler -/

/-- Host introspection facts (`platform`, `os`, `datetime` at startup),
passed explicitly to the embedding. -/
structure Host where
  system : String
  release : String
  machine : String
  processor : String
  cpuCount : Int
  cwd : String
  home : String
  node : String
  startIso : String

/-- `SimpleMCPServer.system_info`. -/
def system_info (host : Host) (arguments : Args) : Response :=
  let info_type := dictGet arguments "info_type" ""
  if info_type = "platform" then
    mkOk ("Platform: " ++ host.system ++ " " ++ host.release
          ++ "\nArchitecture: " ++ host.machine
          ++ "\nProcessor: " ++ host.processor)
  else if info_type = "cpu" then
    mkOk ("CPU Count: " ++ toString host.cpuCount ++ "\nProcessor: " ++ host.processor)
  else if info_type = "memory" then
    mkOk "Memory information requires psutil library"
  else if info_type = "disk" then
    mkOk ("Current directory: " ++ host.cwd ++ "\nHome directory: " ++ host.home)
  else if info_type = "network" then
    mkOk ("Hostname: " ++ host.node)
  else if info_type = "processes" then
    mkOk "Process information requires psutil library"
  else if info_type = "uptime" then
    mkOk ("Python started at: " ++ host.startIso)
  else mkErr ("Unknown info type: " ++ info_type)

/-! ## The `file_operations` handler -/

/-- The modelled filesystem: regular files (path to text content) and
directories (path to entry names).  Host-level I/O failures — permissions,
OS errors, paths that are neither a file key nor a directory key behaving
unexpectedly — are outside the model, so the handler's `except` backstop is
unreachable here. -/
structure FS where
  files : List (String × String)
  dirs : List (String × List String)

/-- `os.path.isfile`. -/
def FS.isFile (fs : FS) (path : String) : Bool :=
  (fs.files.lookup path).isSome

/-- `os.path.isdir`. -/
def FS.isDir (fs : FS) (path : String) : Bool :=
  (fs.dirs.lookup path).isSome

/-- `SimpleMCPServer.file_operations`; returns the response together with
the filesystem after the call (only `write` changes it). -/
def file_operations (fs : FS) (arguments : Args) : Response × FS :=
  let operation := dictGet arguments "operation" ""
  let path := dictGet arguments "path" ""
  let content := dictGet arguments "content" ""
  if operation = "list" then
    match fs.dirs.lookup path with
    | some items =>
        (mkOk ("Contents of " ++ path ++ ":\n" ++ String.intercalate "\n" items), fs)
    | none => (mkOk ("Path " ++ path ++ " is not a directory"), fs)
  else if operation = "read" then
    match fs.files.lookup path with
    | some text => (mkOk ("Contents of " ++ path ++ ":\n" ++ text), fs)
    | none => (mkOk ("File " ++ path ++ " not found"), fs)
  else if operation = "write" then
    (mkOk ("Successfully wrote to " ++ path),
     { fs with files := (path, content) :: fs.files })
  else if operation = "exists" then
    (mkOk ("Path " ++ path ++ " "
           ++ (if fs.isFile path || fs.isDir path then "exists" else "does not exist")), fs)
  else if operation = "size" then
    match fs.files.lookup path with
    | some text => (mkOk ("Size of " ++ path ++ ": " ++ toString text.utf8ByteSize ++ " bytes"), fs)
    | none =>
        if fs.isDir path then
          -- `os.path.getsize` on a directory returns an OS-dependent number;
          -- modelled as the conventional 4096.
          (mkOk ("Size of " ++ path ++ ": " ++ toString 4096 ++ " bytes"), fs)
        else (mkOk ("Path " ++ path ++ " does not exist"), fs)
  else (mkErr ("Unknown operation: " ++ operation), fs)

/-! ## The `current_time` handler -/

/-- The wall clock at the moment of a call (`datetime.now()`), passed
explicitly: its ISO form, Unix timestamp, and `strftime` rendering. -/
structure Clock where
  iso : String
  timestamp : Int
  strftime : String → String

/-- `SimpleMCPServer.current_time`.  `strftime` is total, so the handler's
`except` backstop is unreachable in the model. -/
def current_time (clock : Clock) (arguments : Args) : Response :=
  let format_type := dictGet arguments "format" "iso"
  let custom_format := dictGet arguments "custom_format" ""
  if format_type = "iso" then
    mkOk ("Current time: " ++ clock.iso)
  else if format_type = "human" then
    mkOk ("Current time: " ++ clock.strftime "%A, %B %d, %Y at %I:%M %p")
  else if format_type = "timestamp" then
    mkOk ("Current time: " ++ toString clock.timestamp)
  else if format_type = "custom" then
    if custom_format ≠ "" then
      mkOk ("Current time: " ++ clock.strftime custom_format)
    else
      mkOk "Current time: Custom format string required for custom format type"
  else mkErr ("Unknown format type: " ++ format_type)

/-! ## The dispatcher (`handle_request`, `call_tool`) -/

/-- `SimpleMCPServer.call_tool`: the if/elif chain over the five handler
names.  The modelled handlers are total, so the surrounding
`try/except` backstop that would produce `Error executing tool ...` is
unreachable; the trailing `Tool not implemented` branch is kept (it is dead
in `handle_request`, which checks membership first). -/
def call_tool (host : Host) (clock : Clock) (fs : FS) (tool_name : String)
    (arguments : Args) : Response × FS :=
  if tool_name = "text_transform" then (text_transform arguments, fs)
  else if tool_name = "calculate" then (calculate arguments, fs)
  else if tool_name = "system_info" then (system_info host arguments, fs)
  else if tool_name = "file_operations" then file_operations fs arguments
  else if tool_name = "current_time" then (current_time clock arguments, fs)
  else (mkErr ("Tool not implemented: " ++ tool_name), fs)

/-- The `params` object of a request; `name := none` models a missing
`name` key (`params.get("name")` is `None`), `arguments := none` a missing
`arguments` key. -/
structure ReqParams where
  name : Option String := none
  arguments : Option Args := none

/-- A parsed request object; `none` fields model missing keys read via
`request.get(...)`. -/
structure Request where
  method : Option String := none
  params : Option ReqParams := none

/-- Python's f-string rendering of an optional string (`None` when the key
was absent). -/
def pyShowOpt : Option String → String
  | some s => s
  | none => "None"

/-- `SimpleMCPServer.handle_request`. -/
def handle_request (host : Host) (clock : Clock) (req : Request) (fs : FS) :
    Response × FS :=
  let params := req.params.getD {}
  if req.method = some "tools/list" then
    (Response.toolsList tools, fs)
  else if req.method = some "tools/call" then
    let arguments := params.arguments.getD []
    match params.name with
    | some n =>
        if toolNames.contains n then call_tool host clock fs n arguments
        else (mkErr ("Unknown tool: " ++ n), fs)
    | none => (mkErr ("Unknown tool: " ++ pyShowOpt none), fs)
  else (mkErr ("Unknown method: " ++ pyShowOpt req.method), fs)

/-! ## The transport loop (`run`) -/

/-- The fixed response to a line that fails JSON parsing. -/
def invalidJsonResponse : Response :=
  Response.result [⟨"text", "Invalid JSON request"⟩] (some true)

/-- Outcome of running the loop over a whole input stream: the response
lines written (one per input line, in order), the requests that were passed
to the dispatcher, and the final filesystem. -/
structure RunOut where
  responses : List Response
  dispatched : List Request
  finalFs : FS

/-- `SimpleMCPServer.run`: one input line per element; `none` models a line
`json.loads` rejects (the `JSONDecodeError` branch), `some req` a line that
parses to the request `req`.  The loop ends exactly when the input list
does (end-of-stream); the dispatcher in the model never throws, so the
outer `Server error` catch-all is unreachable. -/
def runLoop (host : Host) (clock : Clock) : List (Option Request) → FS → RunOut
  | [], fs => ⟨[], [], fs⟩
  | none :: rest, fs =>
      let out := runLoop host clock rest fs
      ⟨invalidJsonResponse :: out.responses, out.dispatched, out.finalFs⟩
  | some req :: rest, fs =>
      let (resp, fs1) := handle_request host clock req fs
      let out := runLoop host clock rest fs1
      ⟨resp :: out.responses, req :: out.dispatched, out.finalFs⟩

/-! ## Fixtures for concrete instantiations -/

/-- A concrete host record. -/
def host0 : Host :=
  { system := "Linux", release := "6.1", machine := "x86_64", processor := "x86_64",
    cpuCount := 8, cwd := "/srv", home := "/home/u", node := "box",
    startIso := "2026-01-01T00:00:00" }

/-- A concrete clock record. -/
def clock0 : Clock :=
  { iso := "2026-01-01T00:00:00", timestamp := 1767225600, strftime := fun _ => "2026" }

/-- The empty filesystem. -/
def fs0 : FS := { files := [], dirs := [] }

/-! ## The uniform response shape (claim C1) -/

/-- The `content`/`isError` contract: the response is in the uniform shape,
its content list is non-empty, and `isError`, when present, is `true`
(success paths omit the key, error paths set it to `True`; it is never a
present `false`). -/
def uniformShapeB : Response → Bool
  | .result [] _ => false
  | .result (_ :: _) (some false) => false
  | .result (_ :: _) _ => true
  | .toolsList _ => false

theorem text_transform_uniform (arguments : Args) :
    uniformShapeB (text_transform arguments) = true := by
  unfold text_transform
  dsimp only
  repeat' split
  all_goals rfl

theorem calculate_uniform (arguments : Args) :
    uniformShapeB (calculate arguments) = true := by
  unfold calculate
  dsimp only
  repeat' split
  all_goals rfl

theorem system_info_uniform (host : Host) (arguments : Args) :
    uniformShapeB (system_info host arguments) = true := by
  unfold system_info
  dsimp only
  repeat' split
  all_goals rfl

theorem file_operations_uniform (fs : FS) (arguments : Args) :
    uniformShapeB (file_operations fs arguments).1 = true := by
  unfold file_operations
  dsimp only
  repeat' split
  all_goals rfl

theorem current_time_uniform (clock : Clock) (arguments : Args) :
    uniformShapeB (current_time clock arguments) = true := by
  unfold current_time
  dsimp only
  repeat' split
  all_goals rfl

theorem call_tool_uniform (host : Host) (clock : Clock) (fs : FS)
    (tool_name : String) (arguments : Args) :
    uniformShapeB (call_tool host clock fs tool_name arguments).1 = true := by
  unfold call_tool
  repeat' split
  all_goals first
    | exact text_transform_uniform _
    | exact calculate_uniform _
    | exact system_info_uniform _ _
    | exact file_operations_uniform _ _
    | exact current_time_uniform _ _
    | rfl

/-- C1: every response of `handle_request` other than for `tools/list` —
tools/call success, validation failure, unknown method, unknown tool — is in
the uniform shape: a non-empty `content` list, with `isError` absent on
success and `true` on failure (never a present `false`). -/
theorem c1_uniform_response (host : Host) (clock : Clock) (req : Request) (fs : FS)
    (h : req.method ≠ some "tools/list") :
    uniformShapeB (handle_request host clock req fs).1 = true := by
  unfold handle_request
  rw [if_neg h]
  repeat' split
  all_goals first
    | exact call_tool_uniform _ _ _ _ _
    | rfl

/-- Witness for C1 at a concrete tools/call request. -/
theorem c1_uniform_response_witness :
    uniformShapeB (handle_request host0 clock0
      { method := some "tools/call",
        params := some { name := some "calculate",
                         arguments := some [("expression", "1+1")] } } fs0).1 = true :=
  c1_uniform_response host0 clock0
    { method := some "tools/call",
      params := some { name := some "calculate",
                       arguments := some [("expression", "1+1")] } } fs0 (by decide)

/-! ## Claim C2: the calculate allow-list -/

/-- The character class claim C2 asserts (digits, whitespace, parentheses,
the four operators — no dot), in contrast to the regex's `calcAllowedChar`,
which also admits the dot. -/
def c2ClaimedChar (c : Char) : Bool :=
  c.isDigit || "+-*/()".toList.contains c || pyIsSpace c

/-- C2 counterexample: the expression `1.` contains the character `.`, which
is outside the claim's allowed class, yet `calculate` returns a success
response (`1. = 1.0`), not the `Invalid expression` error: the code's regex
additionally allows the decimal point. -/
theorem c2_counterexample_dot :
    ('.' ∈ "1.".data ∧ c2ClaimedChar '.' = false)
    ∧ calculate [("expression", "1.")] = mkOk "1. = 1.0" := by
  constructor
  · exact ⟨by decide, by decide⟩
  · decide

/-- C2 (amended): if the expression contains any character other than
digits, whitespace, parentheses, the decimal point, and the operators
`+ - * /`, then `calculate` returns the uniform error response with the
`Invalid expression` text; in particular this holds for every expression
containing a letter. -/
theorem c2_invalid_char_rejected (arguments : Args) (c : Char)
    (hc : c ∈ (dictGet arguments "expression" "").data)
    (hbad : calcAllowedChar c = false) :
    calculate arguments = mkErr invalidExprText := by
  have hfalse : calcRegexOk (dictGet arguments "expression" "") = false := by
    rw [Bool.eq_false_iff]
    intro htrue
    unfold calcRegexOk at htrue
    rw [Bool.and_eq_true, List.all_eq_true] at htrue
    have := htrue.2 c hc
    rw [hbad] at this
    exact Bool.false_ne_true this
  unfold calculate
  rw [if_neg (by simp [hfalse])]

/-- Witness for the amended C2 at the letter-containing expression `2 + x`. -/
theorem c2_invalid_char_rejected_witness :
    calculate [("expression", "2 + x")] = mkErr invalidExprText :=
  c2_invalid_char_rejected [("expression", "2 + x")] 'x' (by decide) (by decide)

/-! ## Claim C4: precedence and associativity of calculate -/

/-- C4: `calculate` on `2 + 3 * 4` succeeds (no `isError`) with exactly the
text `2 + 3 * 4 = 14`, multiplication binding tighter than addition (the
parenthesised grouping gives 20 instead), and equal-precedence operators
associating left-to-right (`10 - 3 - 4 = 3`). -/
theorem c4_calculate_precedence :
    calculate [("expression", "2 + 3 * 4")] = mkOk "2 + 3 * 4 = 14"
    ∧ calculate [("expression", "(2 + 3) * 4")] = mkOk "(2 + 3) * 4 = 20"
    ∧ calculate [("expression", "10 - 3 - 4")] = mkOk "10 - 3 - 4 = 3" := by
  refine ⟨by decide, by decide, by decide⟩

/-! ## Claim C5: the tools/list payload -/

/-- C5: a `tools/list` request gets the `tools` payload shape (not the
uniform `content`/`isError` shape), its list is exactly the registry's five
descriptors, and the advertised names are pairwise distinct. -/
theorem c5_tools_list (host : Host) (clock : Clock) (req : Request) (fs : FS)
    (h : req.method = some "tools/list") :
    (handle_request host clock req fs).1 = Response.toolsList tools
    ∧ tools.length = 5
    ∧ (tools.map ToolDescriptor.name).Nodup := by
  refine ⟨?_, rfl, by decide⟩
  unfold handle_request
  rw [if_pos h]

/-- Witness for C5 at a concrete `tools/list` request. -/
theorem c5_tools_list_witness :
    (handle_request host0 clock0 { method := some "tools/list" } fs0).1
      = Response.toolsList tools
    ∧ tools.length = 5
    ∧ (tools.map ToolDescriptor.name).Nodup :=
  c5_tools_list host0 clock0 { method := some "tools/list" } fs0 rfl

/-! ## Claim C6: current_time custom format without a format string -/

/-- C6: `current_time` with `format = "custom"` and an empty
`custom_format` returns a success response (`isError` absent), whose text
is the usage message asking for a format string; it is not flagged as an
error. -/
theorem c6_custom_empty_format (clock : Clock) (arguments : Args)
    (hf : dictGet arguments "format" "iso" = "custom")
    (hc : dictGet arguments "custom_format" "" = "") :
    current_time clock arguments
      = mkOk "Current time: Custom format string required for custom format type" := by
  unfold current_time
  dsimp only
  rw [hf, hc]
  rfl

/-- Witness for C6 at concrete arguments. -/
theorem c6_custom_empty_format_witness :
    current_time clock0 [("format", "custom")]
      = mkOk "Current time: Custom format string required for custom format type" :=
  c6_custom_empty_format clock0 [("format", "custom")] rfl rfl

/-! ## Claim C7: write-then-read round trip -/

/-- C7: for every filesystem, path and content, a `file_operations` write
succeeds, and an immediately following read of the same path succeeds with
a text that contains the written content (`Contents of <path>:\n<content>`,
which ends with the content). -/
theorem c7_write_then_read (fs : FS) (path content : String) :
    (file_operations fs
       [("operation", "write"), ("path", path), ("content", content)]).1
      = mkOk ("Successfully wrote to " ++ path)
    ∧ (file_operations
        (file_operations fs
          [("operation", "write"), ("path", path), ("content", content)]).2
        [("operation", "read"), ("path", path)]).1
      = mkOk ("Contents of " ++ path ++ ":\n" ++ content)
    ∧ ∃ pre, "Contents of " ++ path ++ ":\n" ++ content = pre ++ content := by
  refine ⟨rfl, ?_, ⟨"Contents of " ++ path ++ ":\n", rfl⟩⟩
  simp [file_operations, dictGet, List.lookup]

/-! ## Claim C9: missing format argument defaults to iso -/

/-- C9: when the arguments mapping has no `format` key at all,
`current_time` silently defaults to `iso` and returns the ISO timestamp as
a success response, even though the advertised input schema lists `format`
among the required properties. -/
theorem c9_missing_format_defaults_iso (clock : Clock) (arguments : Args)
    (h : arguments.lookup "format" = none) :
    current_time clock arguments = mkOk ("Current time: " ++ clock.iso)
    ∧ "format" ∈ current_time_tool.inputSchema.required := by
  refine ⟨?_, by decide⟩
  have hd : dictGet arguments "format" "iso" = "iso" := by
    unfold dictGet
    rw [h]
  unfold current_time
  dsimp only
  rw [hd]
  rfl

/-- Witness for C9 at the empty arguments mapping. -/
theorem c9_missing_format_defaults_iso_witness :
    current_time clock0 [] = mkOk ("Current time: " ++ clock0.iso)
    ∧ "format" ∈ current_time_tool.inputSchema.required :=
  c9_missing_format_defaults_iso clock0 [] rfl

/-! ## Claim C10: tools/call without a name key -/

/-- C10: a `tools/call` request whose params mapping lacks the `name` key
(or that has no params at all) yields the uniform error response with text
`Unknown tool: None` (Python interpolates `None`), with the filesystem
unchanged — the registry membership test fails for `None` before any
handler dispatch in `call_tool` can run. -/
theorem c10_missing_tool_name (host : Host) (clock : Clock) (fs : FS) (req : Request)
    (hm : req.method = some "tools/call")
    (hp : req.params = none ∨ ∃ p, req.params = some p ∧ p.name = none) :
    handle_request host clock req fs = (mkErr "Unknown tool: None", fs) := by
  have hname : (req.params.getD {}).name = none := by
    rcases hp with h | ⟨p, hp, hn⟩
    · rw [h]; rfl
    · rw [hp]; exact hn
  unfold handle_request
  dsimp only
  rw [hm, hname]
  rfl

/-- Witness for C10 at a concrete request with no params mapping. -/
theorem c10_missing_tool_name_witness :
    handle_request host0 clock0 { method := some "tools/call" } fs0
      = (mkErr "Unknown tool: None", fs0) :=
  c10_missing_tool_name host0 clock0 fs0 { method := some "tools/call" } rfl (Or.inl rfl)

/-! ## Claim C8: text_transform algebra -/

theorem char_toNat_ofNat (m : Nat) (h : m < 55296) : (Char.ofNat m).toNat = m := by
  unfold Char.ofNat
  rw [dif_pos (Or.inl h)]
  rfl

theorem pyLowerChar_pyUpperChar (c : Char) (hl : pyLowerChar c = c) :
    pyLowerChar (pyUpperChar c) = c := by
  unfold pyUpperChar
  split
  · next hrange =>
      obtain ⟨h97, h122⟩ := hrange
      have h1 : (Char.ofNat (c.toNat - 32)).toNat = c.toNat - 32 :=
        char_toNat_ofNat _ (by omega)
      unfold pyLowerChar
      rw [if_pos (by rw [h1]; omega), h1,
        show c.toNat - 32 + 32 = c.toNat from by omega, Char.ofNat_toNat]
  · exact hl

theorem map_fix_of_map_eq {f : Char → Char} :
    ∀ l : List Char, l.map f = l → ∀ c ∈ l, f c = c := by
  intro l
  induction l with
  | nil => intro _ c hc; cases hc
  | cons a t ih =>
      intro h c hc
      rw [List.map_cons] at h
      injection h with h1 h2
      rcases List.mem_cons.mp hc with rfl | hct
      · exact h1
      · exact ih h2 c hct

theorem pyReverse_pyReverse (s : String) : pyReverse (pyReverse s) = s := by
  obtain ⟨data⟩ := s
  show String.mk data.reverse.reverse = String.mk data
  rw [List.reverse_reverse]

theorem pyLower_pyUpper_of_fix (s : String) (hl : pyLower s = s) :
    pyLower (pyUpper s) = s := by
  obtain ⟨data⟩ := s
  have hdata : data.map pyLowerChar = data := congrArg String.data hl
  have hfix : ∀ c ∈ data, pyLowerChar c = c := map_fix_of_map_eq _ hdata
  show String.mk ((data.map pyUpperChar).map pyLowerChar) = String.mk data
  rw [List.map_map]
  simp only [Function.comp_def]
  rw [List.map_congr_left (fun c hc => pyLowerChar_pyUpperChar c (hfix c hc)),
    List.map_id']

/-- C8: on ASCII text, `text_transform`'s `reverse` is an involution —
reversing the reversed text gives back the original — and `uppercase`
followed by `lowercase` on an already-lowercase string (one fixed by
`lower`) returns the string unchanged, all at the handler level. -/
theorem c8_text_transform_algebra (s : String)
    (hascii : ∀ c ∈ s.data, c.toNat < 128) :
    (text_transform [("text", s), ("operation", "reverse")] = mkOk (pyReverse s)
      ∧ text_transform [("text", pyReverse s), ("operation", "reverse")] = mkOk s)
    ∧ (pyLower s = s →
        text_transform [("text", s), ("operation", "uppercase")] = mkOk (pyUpper s)
        ∧ text_transform [("text", pyUpper s), ("operation", "lowercase")] = mkOk s) := by
  refine ⟨⟨rfl, ?_⟩, fun hfix => ⟨rfl, ?_⟩⟩
  · show mkOk (pyReverse (pyReverse s)) = mkOk s
    rw [pyReverse_pyReverse]
  · show mkOk (pyLower (pyUpper s)) = mkOk s
    rw [pyLower_pyUpper_of_fix s hfix]

/-- Witness for C8 at the string `abc`. -/
theorem c8_text_transform_algebra_witness :
    (text_transform [("text", "abc"), ("operation", "reverse")] = mkOk (pyReverse "abc")
      ∧ text_transform [("text", pyReverse "abc"), ("operation", "reverse")] = mkOk "abc")
    ∧ (text_transform [("text", "abc"), ("operation", "uppercase")] = mkOk (pyUpper "abc")
      ∧ text_transform [("text", pyUpper "abc"), ("operation", "lowercase")] = mkOk "abc") := by
  have h := c8_text_transform_algebra "abc" (by decide)
  exact ⟨h.1, h.2 (by decide)⟩

/-! ## Claim C3: the transport loop -/

/-- C3: over any input stream, the loop writes exactly one response line
per input line (terminating only at end-of-stream), every line that fails
JSON parsing gets exactly the `Invalid JSON request` error response at its
position (and later lines are still processed), and the dispatcher is
invoked precisely on the lines that parsed. -/
theorem c3_transport_loop (host : Host) (clock : Clock)
    (lines : List (Option Request)) (fs : FS) :
    (runLoop host clock lines fs).responses.length = lines.length
    ∧ (runLoop host clock lines fs).dispatched = lines.filterMap id
    ∧ ∀ i : Nat, lines[i]? = some none →
        (runLoop host clock lines fs).responses[i]? = some invalidJsonResponse := by
  induction lines generalizing fs with
  | nil =>
      refine ⟨rfl, rfl, ?_⟩
      intro i h
      rw [List.getElem?_nil] at h
      cases h
  | cons hd tl ih =>
      cases hd with
      | none =>
          have h := ih fs
          refine ⟨?_, ?_, ?_⟩
          · simp [runLoop, h.1]
          · simp [runLoop, List.filterMap_cons, h.2.1]
          · intro i hi
            cases i with
            | zero => simp [runLoop]
            | succ n =>
                have hn : tl[n]? = some none := by simpa using hi
                simpa [runLoop] using h.2.2 n hn
      | some req =>
          rcases hreq : handle_request host clock req fs with ⟨resp, fs1⟩
          have h := ih fs1
          refine ⟨?_, ?_, ?_⟩
          · simp [runLoop, hreq, h.1]
          · simp [runLoop, hreq, List.filterMap_cons, h.2.1]
          · intro i hi
            cases i with
            | zero => simp at hi
            | succ n =>
                have hn : tl[n]? = some none := by simpa using hi
                simpa [runLoop, hreq] using h.2.2 n hn

/-- Witness for C3 on a two-line stream whose first line is malformed. -/
theorem c3_transport_loop_witness :
    (runLoop host0 clock0 [none, some { method := some "tools/list" }] fs0).responses[0]?
      = some invalidJsonResponse
    ∧ (runLoop host0 clock0 [none, some { method := some "tools/list" }] fs0).responses.length
      = 2 := by
  have h := c3_transport_loop host0 clock0 [none, some { method := some "tools/list" }] fs0
  exact ⟨h.2.2 0 rfl, h.1⟩

end SimpleMCP
